import Mathlib

/-!
Verification of the wonnx graph-construction and kernel-compilation core.

The development shallowly embeds two Rust source files:

* `src/compiler.rs` — the kernel compiler `compile`, which maps an operator
  record plus a shape table to a shader template identifier, a rendering
  context and a three-dimensional dispatch size.  Panics
  (`unimplemented!`, `todo!`, failed lookups and slice indexing) are
  modelled as values of an explicit error type carried by `Except`.
* `wonnx/src/ir.rs` — the memoized translation of operator records into a
  shared DAG (`Node::from_node`).  The `Arc<Node>` heap is modelled as an
  arena (a list of nodes); an arena index plays the role of a pointer, so
  referential equality of `Arc`s becomes equality of indices.  The
  recursion is fuelled; fuel exhaustion models the divergence that the
  Rust code would exhibit on a cyclic definition table (the spec assumes
  acyclicity).

Machine integers (`i64`) are modelled as `Int`; Rust's truncating
division and remainder are `Int.tdiv` and `Int.tmod` (both round toward
zero, matching Rust).  The `as u32` cast is modelled by reduction modulo
2^32 (`u32cast`).
-/

namespace Wonnx

/-- Modelled from the spec: a tensor `Shape` is an ordered list of dimension
sizes.  The concrete `Shape` type lives in the utility module `utils.rs`,
which is not among the sources; only its role as a dimension list is used
here. -/
abbrev Shape := List Int

/-- Typed attribute values of an operator record (the subset of ONNX
attribute kinds that the compiler reads: strings, integer lists and
floats).  Floats are only ever copied into the rendering context, never
computed with, so they are represented by `Rat` literals. -/
inductive AttrValue where
| str : String → AttrValue
| ints : List Int → AttrValue
| flt : Rat → AttrValue
deriving Repr, DecidableEq

/-- An operator record (`NodeProto`): operator type, named inputs and
outputs, optional node name, attributes. -/
structure NodeProto where
name : String
opType : String
input : List String
output : List String
attrs : List (String × AttrValue)
deriving Repr, DecidableEq

/-- A constant tensor bundled with the network; only its name is consulted
by the graph builder. -/
structure TensorProto where
name : String
deriving Repr, DecidableEq

/-- A declared graph input; only its name is consulted by the code under
verification. -/
structure ValueInfoProto where
name : String
deriving Repr, DecidableEq

/-- First-match lookup in an association list, modelling `HashMap::get`
(each key occurs at most once in the maps the code builds; with
insert-as-prepend the first match is the most recent insertion). -/
def assocLookup {α : Type} : List (String × α) → String → Option α
| [], _ => none
| (k, v) :: rest, key => if k = key then some v else assocLookup rest key

/-! ## Kernel compiler (`src/compiler.rs`) -/

/-- Failure modes of `compile`.  In the Rust source these are panics
(`panic!("{} not found", ...)`, `unimplemented!()`, `todo!()`, slice
indexing, `debug_assert!`); the embedding turns each into an explicit
error value. -/
inductive CompileError where
| shapeNotFound : String → CompileError
| attributeIssue : String → CompileError
| unimplemented : CompileError
| indexOutOfBounds : CompileError
| assertionFailed : CompileError
deriving Repr, DecidableEq

/-- Values storable in the rendering context (numbers, strings, lists of
numbers or strings, booleans — the `tera::Context` contract). -/
inductive CtxVal where
| int : Int → CtxVal
| ints : List Int → CtxVal
| str : String → CtxVal
| strs : List String → CtxVal
| bool : Bool → CtxVal
| flt : Rat → CtxVal
deriving Repr, DecidableEq

/-- The rendering context: insertion prepends, lookup takes the first
match, so a later `insert` with the same key overrides an earlier one —
the `tera::Context::insert` behaviour the source relies on when it
overrides `op_type`. -/
abbrev Ctx := List (String × CtxVal)

def ctxInsert (ctx : Ctx) (k : String) (v : CtxVal) : Ctx := (k, v) :: ctx

def ctxLookup (ctx : Ctx) (k : String) : Option CtxVal := assocLookup ctx k

/-- Modelled from the spec: `get_attribute(name, default, record)` from the
utility module (not among the sources) returns the attribute's typed value,
the supplied default when the attribute is absent, and fails when a
required attribute (no default) is absent.  A present attribute of the
wrong kind also fails.  This is the `String`-typed instance. -/
def getAttrString (nm : String) (dflt : Option String) (node : NodeProto) :
    Except CompileError String :=
  match assocLookup node.attrs nm with
  | some (AttrValue.str s) => Except.ok s
  | some _ => Except.error (CompileError.attributeIssue nm)
  | none =>
    match dflt with
    | some d => Except.ok d
    | none => Except.error (CompileError.attributeIssue nm)

/-- Modelled from the spec: the `Vec<i64>`-typed instance of
`get_attribute` (see `getAttrString`). -/
def getAttrInts (nm : String) (dflt : Option (List Int)) (node : NodeProto) :
    Except CompileError (List Int) :=
  match assocLookup node.attrs nm with
  | some (AttrValue.ints l) => Except.ok l
  | some _ => Except.error (CompileError.attributeIssue nm)
  | none =>
    match dflt with
    | some d => Except.ok d
    | none => Except.error (CompileError.attributeIssue nm)

/-- Modelled from the spec: the float-typed instance of `get_attribute`
(see `getAttrString`); floats are represented as `Rat` literals. -/
def getAttrFloat (nm : String) (dflt : Option Rat) (node : NodeProto) :
    Except CompileError Rat :=
  match assocLookup node.attrs nm with
  | some (AttrValue.flt x) => Except.ok x
  | some _ => Except.error (CompileError.attributeIssue nm)
  | none =>
    match dflt with
    | some d => Except.ok d
    | none => Except.error (CompileError.attributeIssue nm)

/-- Modelled from the spec: `ceil(n, k)` from the utility module (not among
the sources).  The spec's worked example (`ceil(1000, 256) = 4`) and the
use of the result as a count of dispatched work groups fix it as the
ceiling of `n / k` (each work group covers `k` elements). -/
def ceil (num divisor : Int) : Int := Int.tdiv (num + divisor - 1) divisor

/-- The spec's literal wording for `ceil`: "the smallest multiple of k that
is ≥ n" (for positive `k` and nonnegative `n`).  Kept separate from `ceil`
because the spec's own worked example (`ceil(1000, 256) = 4`) contradicts
this wording (the smallest multiple of 256 that is ≥ 1000 is 1024). -/
def ceilMultiple (n k : Int) : Int := Int.tdiv (n + k - 1) k * k

/-- Rust's `as u32` cast applied to an `i64`: keep the low 32 bits
(two's-complement wrap-around); the result is a nonnegative integer below
2^32. -/
def u32cast (n : Int) : Nat := (Int.emod n 4294967296).toNat

/-- `Vec::iter().product()` — the product of a dimension list, i.e. the
flattened element count of a tensor. -/
def listProd (l : List Int) : Int := l.foldl (fun a b => a * b) 1

/-- Rust slice indexing `v[i]`: an out-of-range index panics; the panic is
modelled as an error value. -/
def listIdx {α : Type} (l : List α) (i : Nat) : Except CompileError α :=
  match l.get? i with
  | some a => Except.ok a
  | none => Except.error CompileError.indexOutOfBounds

/-- The `dims_infos` shape-table lookups at the top of `compile`: every
input (and output) name is looked up eagerly and a missing entry panics
with `"{} not found"`. -/
def mapLookupDims (dims : List (String × List Int)) :
    List String → Except CompileError (List (List Int))
| [] => Except.ok []
| n :: rest =>
  match assocLookup dims n with
  | none => Except.error (CompileError.shapeNotFound n)
  | some d =>
    match mapLookupDims dims rest with
    | Except.error e => Except.error e
    | Except.ok ds => Except.ok (d :: ds)

/-- The characters stripped from tensor names before they are placed in the
rendering context: `(` `)` `,` `"` `.` `;` `:` `'` `/` (the literal char
array in `compile`). -/
def illegalNameChars : List Char :=
  [Char.ofNat 40, Char.ofNat 41, Char.ofNat 44, Char.ofNat 34,
   Char.ofNat 46, Char.ofNat 59, Char.ofNat 58, Char.ofNat 39,
   Char.ofNat 47]

/-- `input.replace(&['(', ')', ',', '"', '.', ';', ':', '\'', '/'][..], "")`
— remove every occurrence of each illegal character, keeping all other
characters in order. -/
def escapeName (s : String) : String :=
  String.mk (s.data.filter (fun c => decide (c ∉ illegalNameChars)))

/-- `str::to_lowercase()` applied to an operator-type name, modelled
per character (operator-type names are ASCII). -/
def toLowerStr (s : String) : String := String.mk (s.data.map Char.toLower)

/-- Insert `pre ++ i` keys (e.g. `i_dims_0`, `i_dims_1`, …) for the
enumerated values, mirroring the `for (i, dims) in ... .enumerate()` loops
that populate the context. -/
def ctxInsertEnum (pre : String) : Ctx → Nat → List CtxVal → Ctx
| ctx, _, [] => ctx
| ctx, i, v :: rest => ctxInsertEnum pre (ctxInsert ctx (pre ++ toString i) v) (i + 1) rest

/-- The `auto_pad` resolution shared by the pooling and convolution branches
of `compile` (the source contains the identical block twice, at lines
152–183 and 233–264 of `compiler.rs`): `NOTSET` keeps the `pads` attribute
verbatim; `SAME_UPPER`/`SAME_LOWER` derive per-axis low/high pads from the
slack `-stride + (kernel - 1) * dilation + 1`; any other value is
unimplemented. -/
def resolvePads (auto_pad : String) (strides kernel_shape dilations pads : List Int) :
    Except CompileError (List Int) :=
  match auto_pad with
  | "NOTSET" => Except.ok pads
  | "SAME_UPPER" => do
    let s0 ← listIdx strides 0
    let k0 ← listIdx kernel_shape 0
    let d0 ← listIdx dilations 0
    let s1 ← listIdx strides 1
    let k1 ← listIdx kernel_shape 1
    let d1 ← listIdx dilations 1
    let slack_0 := -s0 + ((k0 - 1) * d0 + 1)
    let slack_0_div_2 := Int.tdiv slack_0 2
    let slack_rest_0 := Int.tmod slack_0 2
    let slack_1 := -s1 + ((k1 - 1) * d1 + 1)
    let slack_1_div_2 := Int.tdiv slack_1 2
    let slack_rest_1 := Int.tmod slack_1 2
    return [slack_0_div_2, slack_1_div_2,
            slack_0_div_2 + slack_rest_0, slack_1_div_2 + slack_rest_1]
  | "SAME_LOWER" => do
    let s0 ← listIdx strides 0
    let k0 ← listIdx kernel_shape 0
    let d0 ← listIdx dilations 0
    let s1 ← listIdx strides 1
    let k1 ← listIdx kernel_shape 1
    let d1 ← listIdx dilations 1
    let slack_0 := -s0 + ((k0 - 1) * d0 + 1)
    let slack_0_div_2 := Int.tdiv slack_0 2
    let slack_rest_0 := Int.tmod slack_0 2
    let slack_1 := -s1 + ((k1 - 1) * d1 + 1)
    let slack_1_div_2 := Int.tdiv slack_1 2
    let slack_rest_1 := Int.tmod slack_1 2
    return [slack_0_div_2 + slack_rest_0, slack_1_div_2 + slack_rest_1,
            slack_0_div_2, slack_1_div_2]
  | _ => Except.error CompileError.unimplemented

/-- The kernel compiler `compile` of `src/compiler.rs`.  Instead of invoking
the (external) template renderer on the computed context, the embedding
returns the template identifier together with the rendering context and
the dispatch size `(x, y, z)`; the actual source returns the rendered
shader text in the template identifier's place.  Every panic of the source
is an explicit `CompileError`. -/
def compile (node : NodeProto) (dims_infos : List (String × List Int)) :
    Except CompileError (String × Ctx × Nat × Nat × Nat) := do
  let inputs := node.input
  let outputs := node.output
  let input_dims ← mapLookupDims dims_infos inputs
  let output_dims ← mapLookupDims dims_infos outputs
  let input_lengths := input_dims.map listProd
  let output_lengths := output_dims.map listProd
  let inputsEsc := inputs.map escapeName
  let outputsEsc := outputs.map escapeName
  let ctx : Ctx := []
  let ctx := ctxInsertEnum "i_dims_" ctx 0 (input_dims.map CtxVal.ints)
  let ctx := ctxInsertEnum "o_dims_" ctx 0 (output_dims.map CtxVal.ints)
  let ctx := ctxInsertEnum "i_len_" ctx 0 (input_lengths.map CtxVal.int)
  let ctx := ctxInsertEnum "o_len_" ctx 0 (output_lengths.map CtxVal.int)
  let ctx := ctxInsert ctx "input" (CtxVal.strs inputsEsc)
  let ctx := ctxInsert ctx "output" (CtxVal.strs outputsEsc)
  let ctx := ctxInsert ctx "op_type" (CtxVal.str (toLowerStr node.opType))
  match node.opType with
  | "Abs" | "Acos" | "Asin" | "Atan" | "Ceil" | "Cos" | "Cosh" | "Exp" | "Floor" | "Log"
  | "Round" | "Sign" | "Sin" | "Sinh" | "Sqrt" | "Tan" | "Tanh" => do
    let len0 ← listIdx output_lengths 0
    return ("endomorphism/map.wgsl", ctx, u32cast (Int.tdiv len0 4), 1, 1)
  | "Reshape" | "Dropout" | "Flatten" | "Squeeze" | "Softmax" => do
    let len0 ← listIdx output_lengths 0
    return ("endomorphism/copy.wgsl", ctx, u32cast (Int.tdiv len0 16), 1, 1)
  | "Add" | "And" | "Div" | "Equal" | "Greater" | "GreaterOrEqual" | "Less" | "LessOrEqual"
  | "Mod" | "Mul" | "Or" | "Sub" => do
    let symbol ←
      match node.opType with
      | "Add" => Except.ok "+"
      | "And" => Except.ok "&"
      | "Div" => Except.ok "/"
      | "Equal" => Except.ok "=="
      | "Greater" => Except.ok ">"
      | "GreaterOrEqual" => Except.ok ">="
      | "Less" => Except.ok "<"
      | "LessOrEqual" => Except.ok "<="
      | "Mod" => Except.ok "%"
      | "Mul" => Except.ok "*"
      | "Or" => Except.ok "|"
      | "Sub" => Except.ok "-"
      | _ => Except.error CompileError.unimplemented
    let ctx := ctxInsert ctx "op_type" (CtxVal.str symbol)
    let len0 ← listIdx output_lengths 0
    return ("endomorphism/arithmetic.wgsl", ctx, u32cast (Int.tdiv len0 4), 1, 1)
  | "BatchNormalization" => do
    let epsilon ← getAttrFloat "epsilon" (some 1) node
    let _ctx := ctxInsert ctx "epsilon" (CtxVal.flt epsilon)
    Except.error CompileError.unimplemented
  | "Celu" | "Elu" => do
    let alpha ← getAttrFloat "alpha" (some 1) node
    let ctx := ctxInsert ctx "alpha" (CtxVal.flt alpha)
    let len0 ← listIdx output_lengths 0
    return ("endomorphism/activation.wgsl", ctx, u32cast (Int.tdiv len0 4), 1, 1)
  | "Concat" => do
    let len0 ← listIdx output_lengths 0
    return ("matrix/concat.wgsl", ctx, u32cast (ceil len0 256), 1, 1)
  | "MaxPool" | "AveragePool" => do
    let idim0 ← listIdx input_dims 0
    -- debug_assert!(input_dims[0].len() == 4usize)
    if idim0.length = 4 then do
      let auto_pad ← getAttrString "auto_pad" (some "NOTSET") node
      let dilations ← getAttrInts "dilations" (some [1, 1]) node
      let kernel_shape ← getAttrInts "kernel_shape" none node
      let strides ← getAttrInts "strides" (some [1, 1]) node
      let pads ← getAttrInts "pads" (some [0, 0, 0, 0]) node
      let pads ← resolvePads auto_pad strides kernel_shape dilations pads
      let odim0 ← listIdx output_dims 0
      let i1 ← listIdx idim0 1
      let i2 ← listIdx idim0 2
      let i3 ← listIdx idim0 3
      let o1 ← listIdx odim0 1
      let o2 ← listIdx odim0 2
      let o3 ← listIdx odim0 3
      let ctx := ctxInsert ctx "M_x_H_x_W" (CtxVal.int (o1 * o2 * o3))
      let ctx := ctxInsert ctx "H_x_W" (CtxVal.int (o2 * o3))
      let ctx := ctxInsert ctx "original_C_x_H_x_W" (CtxVal.int (i1 * i2 * i3))
      let ctx := ctxInsert ctx "original_H_x_W" (CtxVal.int (i2 * i3))
      let ctx := ctxInsert ctx "original_width" (CtxVal.int i3)
      let ctx := ctxInsert ctx "width" (CtxVal.int o3)
      let ctx := ctxInsert ctx "original_height" (CtxVal.int i2)
      let ctx := ctxInsert ctx "channel" (CtxVal.int i1)
      let ctx := ctxInsert ctx "stride" (CtxVal.ints strides)
      let ctx := ctxInsert ctx "kernel_shape" (CtxVal.ints kernel_shape)
      let k0 ← listIdx kernel_shape 0
      let k1 ← listIdx kernel_shape 1
      let ctx := ctxInsert ctx "kernel_len" (CtxVal.int (k0 * k1))
      let ctx := ctxInsert ctx "kernel_channel_len" (CtxVal.int (k0 * k1 * i1))
      let ctx := ctxInsert ctx "pad" (CtxVal.ints pads)
      let ctx := ctxInsert ctx "dilation" (CtxVal.ints dilations)
      let ctx := if node.opType = "ConvRelu"
        then ctxInsert ctx "conv_relu" (CtxVal.bool true) else ctx
      let len0 ← listIdx output_lengths 0
      return ("pool/aggregate.wgsl", ctx, u32cast (ceil len0 1024), 1, 1)
    else Except.error CompileError.assertionFailed
  | "Conv" | "ConvRelu" => do
    let idim0 ← listIdx input_dims 0
    -- debug_assert!(input_dims[0].len() == 4usize)
    if idim0.length = 4 then do
      let auto_pad ← getAttrString "auto_pad" (some "NOTSET") node
      let dilations ← getAttrInts "dilations" (some [1, 1]) node
      let kernel_shape ← getAttrInts "kernel_shape" none node
      let strides ← getAttrInts "strides" (some [1, 1]) node
      let pads ← getAttrInts "pads" (some [0, 0, 0, 0]) node
      let pads ← resolvePads auto_pad strides kernel_shape dilations pads
      let odim0 ← listIdx output_dims 0
      let ctx := ctxInsert ctx "output_dims" (CtxVal.ints odim0)
      let ctx := ctxInsert ctx "input_dims" (CtxVal.ints idim0)
      let i1 ← listIdx idim0 1
      let i2 ← listIdx idim0 2
      let i3 ← listIdx idim0 3
      let o1 ← listIdx odim0 1
      let o2 ← listIdx odim0 2
      let o3 ← listIdx odim0 3
      let ctx := ctxInsert ctx "M_x_H_x_W" (CtxVal.int (o1 * o2 * o3))
      let ctx := ctxInsert ctx "H_x_W" (CtxVal.int (o2 * o3))
      let ctx := ctxInsert ctx "original_C_x_H_x_W" (CtxVal.int (i1 * i2 * i3))
      let ctx := ctxInsert ctx "original_H_x_W" (CtxVal.int (i2 * i3))
      let ctx := ctxInsert ctx "original_width" (CtxVal.int i3)
      let ctx := ctxInsert ctx "width" (CtxVal.int o3)
      let ctx := ctxInsert ctx "original_height" (CtxVal.int i2)
      let ctx := ctxInsert ctx "channel" (CtxVal.int i1)
      let ctx := ctxInsert ctx "stride" (CtxVal.ints strides)
      let ctx := ctxInsert ctx "kernel_shape" (CtxVal.ints kernel_shape)
      let k0 ← listIdx kernel_shape 0
      let k1 ← listIdx kernel_shape 1
      let ctx := ctxInsert ctx "kernel_len" (CtxVal.int (k0 * k1))
      let ctx := ctxInsert ctx "kernel_channel_len" (CtxVal.int (k0 * k1 * i1))
      let ctx := ctxInsert ctx "pad" (CtxVal.ints pads)
      let ctx := ctxInsert ctx "dilation" (CtxVal.ints dilations)
      let ctx := if node.opType = "ConvRelu"
        then ctxInsert ctx "conv_relu" (CtxVal.bool true) else ctx
      let len0 ← listIdx output_lengths 0
      if strides = [1, 1] ∧ kernel_shape = [1, 1] ∧
          (dilations = [1, 1] ∧ pads = [0, 0, 0, 0]) ∧
          Int.tmod i1 16 = 0 ∧ Int.tmod o1 4 = 0 then
        return ("pool/conv_kernel_1.wgsl", ctx, u32cast (ceil len0 1024), 1, 1)
      else if strides = [1, 1] ∧ kernel_shape = [3, 3] ∧ dilations = [1, 1] ∧
          Int.tmod o1 4 = 0 then
        return ("pool/conv_kernel_3.wgsl", ctx, u32cast (ceil len0 1024), 1, 1)
      else
        return ("pool/conv.wgsl", ctx, u32cast (ceil len0 256), 1, 1)
    else Except.error CompileError.assertionFailed
  | "Gemm" | "MatMul" => do
    let alpha ← getAttrFloat "alpha" (some 1) node
    let beta ← getAttrFloat "beta" (some 1) node
    let ctx := ctxInsert ctx "alpha" (CtxVal.flt alpha)
    let ctx := ctxInsert ctx "beta" (CtxVal.flt beta)
    let idim0 ← listIdx input_dims 0
    let idim1 ← listIdx input_dims 1
    let left_columns ← listIdx idim0 1
    let right_columns ← listIdx idim1 1
    let ctx := ctxInsert ctx "left_columns" (CtxVal.int left_columns)
    let ctx := ctxInsert ctx "right_columns" (CtxVal.int right_columns)
    let d00 ← listIdx idim0 0
    if d00 = 1 then do
      let odim0 ← listIdx output_dims 0
      let threads ← listIdx odim0 1
      return ("matrix/gemm_1.wgsl", ctx, u32cast threads, 1, 1)
    else
      return ("matrix/gemm.wgsl", ctx,
              u32cast (Int.tdiv (Int.tdiv d00 4 * right_columns) 4), 1, 1)
  | "Relu" | "Sigmoid" | "Softsign" | "Softplus" | "Clip" =>
    return ("endomorphism/activation.wgsl", ctx, 1, 1, 1)
  | "Sum" => Except.error CompileError.unimplemented
  | "Transpose" => do
    let len0 ← listIdx output_lengths 0
    return ("matrix/transpose.wgsl", ctx, u32cast (Int.tdiv len0 4), 1, 1)
  | _ => Except.error CompileError.unimplemented

/-- Projection of a compilation result onto the template identifier and the
dispatch size, discarding the rendering context. -/
def kernelOf (e : Except CompileError (String × Ctx × Nat × Nat × Nat)) :
    Except CompileError (String × Nat × Nat × Nat) :=
  e.map (fun r => (r.1, r.2.2))

/-- Every operator-type string that names a branch of the `compile` decision
table (including the two explicitly unimplemented ones, `Sum` and
`BatchNormalization`); any other operator type falls to the default
`unimplemented!()` arm. -/
def handledOpTypes : List String :=
  ["Abs", "Acos", "Asin", "Atan", "Ceil", "Cos", "Cosh", "Exp", "Floor", "Log",
   "Round", "Sign", "Sin", "Sinh", "Sqrt", "Tan", "Tanh",
   "Reshape", "Dropout", "Flatten", "Squeeze", "Softmax",
   "Add", "And", "Div", "Equal", "Greater", "GreaterOrEqual", "Less", "LessOrEqual",
   "Mod", "Mul", "Or", "Sub",
   "BatchNormalization", "Celu", "Elu", "Concat", "MaxPool", "AveragePool",
   "Conv", "ConvRelu", "Gemm", "MatMul",
   "Relu", "Sigmoid", "Softsign", "Softplus", "Clip", "Sum", "Transpose"]

/-- The unary elementwise-map operator types (first row of the decision
table). -/
def unaryOpTypes : List String :=
  ["Abs", "Acos", "Asin", "Atan", "Ceil", "Cos", "Cosh", "Exp", "Floor", "Log",
   "Round", "Sign", "Sin", "Sinh", "Sqrt", "Tan", "Tanh"]

/-- The shape-only copy operator types (second row of the decision table). -/
def copyOpTypes : List String :=
  ["Reshape", "Dropout", "Flatten", "Squeeze", "Softmax"]

/-! ## Graph construction (`wonnx/src/ir.rs`) -/

/-- The error type of graph construction (`IrError`).  The variants
`outputNodeNotFound` and `inputNodeNotFound` are the source's
`OutputNodeNotFound(String)` and
`InputNodeNotFound { target_node_name, input_name }`; `typeIssue` wraps the
`DataTypeError` of the utility module (whose payload is not needed here).
`emptyOutputs` models the `get_output()[0]` index panic of `unique_name`,
and `recursionLimit` models the divergence the source would exhibit on a
cyclic definition table (the spec assumes acyclicity, so well-formed inputs
never hit it). -/
inductive IrError where
| outputNodeNotFound : String → IrError
| inputNodeNotFound : String → String → IrError
| typeIssue : IrError
| emptyOutputs : IrError
| recursionLimit : IrError
deriving Repr, DecidableEq

/-- `OperatorDefinition`: the operator record together with the resolved
shape of each of its declared outputs. -/
structure OperatorDefinition where
proto : NodeProto
output_shapes : List Shape
deriving Repr, DecidableEq

/-- `NodeDefinition`: the tagged variant stored in a graph node. -/
inductive NodeDefinition where
| operator : OperatorDefinition → NodeDefinition
| tensor : TensorProto → NodeDefinition
| input : ValueInfoProto → NodeDefinition
| outputs : List String → NodeDefinition
| missing : NodeDefinition
deriving Repr, DecidableEq

/-- `NodeDefinition::get_name`: a node is identified by its first output's
name; tensors and inputs by their own name; the synthetic outputs node by
`" "`; the missing-input sentinel by `""`.  In the operator case the source
indexes `get_output()[0]` (a panic on an output-less record); that case is
only reached for records with at least one output, and is rendered total
here with `""` as the out-of-range placeholder. -/
def NodeDefinition.get_name : NodeDefinition → String
| NodeDefinition.operator op => op.proto.output.headD ""
| NodeDefinition.tensor t => t.name
| NodeDefinition.input i => i.name
| NodeDefinition.outputs _ => " "
| NodeDefinition.missing => ""

/-- The shape-collection loop of `OperatorDefinition::from`: each declared
output must have a shape in `value_shapes`, else
`OutputNodeNotFound(output_name)`. -/
def collectOutputShapes (value_shapes : List (String × Shape)) :
    List String → Except IrError (List Shape)
| [] => Except.ok []
| o :: rest =>
  match assocLookup value_shapes o with
  | none => Except.error (IrError.outputNodeNotFound o)
  | some sh =>
    match collectOutputShapes value_shapes rest with
    | Except.error e => Except.error e
    | Except.ok shs => Except.ok (sh :: shs)

/-- `OperatorDefinition::from` (the name `from` is a Lean keyword): resolve
the output shapes of an operator record. -/
def OperatorDefinition.fromProto (node : NodeProto) (value_shapes : List (String × Shape)) :
    Except IrError OperatorDefinition :=
  match collectOutputShapes value_shapes node.output with
  | Except.error e => Except.error e
  | Except.ok shapes => Except.ok ⟨node, shapes⟩

/-- `NodeProto::unique_name`: the first output's name (`get_output()[0]`);
the index panic on an output-less record is an explicit error. -/
def NodeProto.unique_name (node : NodeProto) : Except IrError String :=
  match node.output.head? with
  | some s => Except.ok s
  | none => Except.error IrError.emptyOutputs

/-- An input edge of an arena node: the producer's arena index (the model of
the `Arc<Node>` pointer — equal indices are referentially equal nodes) and
the `output_index` selecting which of the producer's outputs is consumed. -/
structure Input where
source_node : Nat
output_index : Nat
deriving Repr, DecidableEq

/-- An arena node: its definition and its resolved input edges. -/
structure Node where
definition : NodeDefinition
inputs : List Input
deriving Repr, DecidableEq

/-- The mutable state threaded through a build: the arena of allocated
nodes (the `Arc` heap) and the memo map `nodes_by_unique_name` from unique
name to arena index.  The memo is an association list whose insertions
prepend, so `assocLookup` sees the newest binding first. -/
structure BuildState where
arena : List Node
memo : List (String × Nat)
deriving Repr, DecidableEq

mutual

/-- `Node::from_node`: translate an operator record into an arena node.
If the unique name is already memoized the memoized node is returned
unchanged; otherwise the record's inputs are resolved (recursively building
producer operators), the operator definition's output shapes are resolved,
and the new node is allocated and memoized.  `fuel` bounds the recursion
depth; every recursive call consumes one unit.

Error priority: the source eagerly collects the input-resolution `Result`,
but the `Node` struct literal then evaluates its `definition` field — and
with it the `?` on `OperatorDefinition::from(node.clone(), value_shapes)` —
before the `?` on the collected inputs; when both fail, the output-shape
error `OutputNodeNotFound(output_name)` therefore takes priority over the
input-resolution error, which the nesting below mirrors.  (The memo
mutations performed by a partially failed input resolution are
unobservable: every error propagates out of the whole build, so the
error paths here discard the intermediate state.) -/
def from_node : Nat → NodeProto → List (String × Shape) →
    List (String × NodeDefinition) → BuildState → Except IrError (Nat × BuildState)
| 0, _, _, _, _ => Except.error IrError.recursionLimit
| fuel + 1, node, value_shapes, defs, st =>
  match node.output.head? with
  | none => Except.error IrError.emptyOutputs
  | some node_name =>
    match assocLookup st.memo node_name with
    | some i => Except.ok (i, st)
    | none =>
      match OperatorDefinition.fromProto node value_shapes with
      | Except.error e => Except.error e
      | Except.ok opdef =>
        match resolveInputs fuel node.input value_shapes defs st with
        | Except.error e => Except.error e
        | Except.ok (inputs, st1) =>
          Except.ok (st1.arena.length,
            ⟨st1.arena ++ [⟨NodeDefinition.operator opdef, inputs⟩],
             (node_name, st1.arena.length) :: st1.memo⟩)

/-- The input-resolution loop of `from_node` (the `node.get_input().iter().map(...)`
closure, applied left to right). -/
def resolveInputs : Nat → List String → List (String × Shape) →
    List (String × NodeDefinition) → BuildState → Except IrError (List Input × BuildState)
| 0, _, _, _, _ => Except.error IrError.recursionLimit
| _ + 1, [], _, _, st => Except.ok ([], st)
| fuel + 1, input_name :: rest, value_shapes, defs, st =>
  match resolveInput fuel input_name value_shapes defs st with
  | Except.error e => Except.error e
  | Except.ok (inp, st1) =>
    match resolveInputs fuel rest value_shapes defs st1 with
    | Except.error e => Except.error e
    | Except.ok (inps, st2) => Except.ok (inp :: inps, st2)

/-- Resolution of one declared input name (the body of the closure in
`from_node`): an unregistered name falls back to the `Missing` sentinel
definition (`unwrap_or(&MISSING_OPTIONAL_INPUT)`); a registered operator is
built (or fetched) recursively and the edge records the position of the
name among the producer's declared outputs — when the name is absent there
the source fails with `OutputNodeNotFound("from_node {name}")`; any other
definition is fetched from, or freshly allocated into, the memo map under
its `get_name()`. -/
def resolveInput : Nat → String → List (String × Shape) →
    List (String × NodeDefinition) → BuildState → Except IrError (Input × BuildState)
| 0, _, _, _, _ => Except.error IrError.recursionLimit
| fuel + 1, input_name, value_shapes, defs, st =>
  match assocLookup defs input_name with
  | some (NodeDefinition.operator source_op) =>
    (match from_node fuel source_op.proto value_shapes defs st with
     | Except.error e => Except.error e
     | Except.ok (i, st1) =>
       match source_op.proto.output.findIdx? (fun s => s == input_name) with
       | some oi => Except.ok (⟨i, oi⟩, st1)
       | none => Except.error (IrError.outputNodeNotFound ("from_node " ++ input_name)))
  | other =>
    let sdef := other.getD NodeDefinition.missing
    let source_name := sdef.get_name
    match assocLookup st.memo source_name with
    | some j => Except.ok (⟨j, 0⟩, st)
    | none =>
      Except.ok (⟨st.arena.length, 0⟩,
        ⟨st.arena ++ [⟨sdef, []⟩], (source_name, st.arena.length) :: st.memo⟩)

end

/-! ### Small observers used in statements -/

/-- Whether a definition is the `Operator` variant. -/
def NodeDefinition.isOperator : NodeDefinition → Bool
| NodeDefinition.operator _ => true
| _ => false

/-- Whether a definition is the `Input` variant. -/
def NodeDefinition.isInput : NodeDefinition → Bool
| NodeDefinition.input _ => true
| _ => false

/-- Whether a definition is the `Missing` sentinel. -/
def NodeDefinition.isMissing : NodeDefinition → Bool
| NodeDefinition.missing => true
| _ => false

/-- Whether an `IrError` is the `InputNodeNotFound` variant. -/
def IrError.isInputNodeNotFound : IrError → Bool
| IrError.inputNodeNotFound _ _ => true
| _ => false

/-! ### Value view of nodes (`is_dynamic` / `is_constant`)

`Arc<Node>` graphs are immutable and acyclic, so as *values* they are
finitely branching trees; the tree view below is the faithful embedding of
`Node::is_dynamic` and `Node::is_constant`, which never observe sharing.
An edge is a pair of the producer node and the consumed `output_index`. -/

/-- A graph node viewed as a value: its definition and its input edges
`(source_node, output_index)`. -/
inductive NodeT where
| mk : NodeDefinition → List (NodeT × Nat) → NodeT

/-- The definition variant of a tree node. -/
def NodeT.definition : NodeT → NodeDefinition
| NodeT.mk d _ => d

/-- The input edges of a tree node. -/
def NodeT.inputsOf : NodeT → List (NodeT × Nat)
| NodeT.mk _ ins => ins

/-- `Node::is_dynamic`: `matches!(definition, Operator(..) | Input(..))`. -/
def NodeT.is_dynamic : NodeT → Bool
| NodeT.mk d _ => d.isOperator || d.isInput

mutual

/-- `Node::is_constant`: not dynamic, or an operator whose every input's
source node is (recursively) constant. -/
def NodeT.is_constant : NodeT → Bool
| NodeT.mk d ins =>
  !(NodeT.is_dynamic (NodeT.mk d ins)) || (d.isOperator && allConstant ins)

/-- `inputs.iter().all(|i| i.source_node.is_constant())`. -/
def allConstant : List (NodeT × Nat) → Bool
| [] => true
| (n, _) :: rest => NodeT.is_constant n && allConstant rest

end

mutual

/-- Whether a node is, or transitively consumes, a declared network input
(the spec's "Input-derived ancestor"). -/
def NodeT.hasInputAncestor : NodeT → Bool
| NodeT.mk d ins => d.isInput || anyInputAncestor ins

def anyInputAncestor : List (NodeT × Nat) → Bool
| [] => false
| (n, _) :: rest => NodeT.hasInputAncestor n || anyInputAncestor rest

end

mutual

/-- Shape well-formedness of a node value as `from_node` produces it:
only operator nodes carry input edges (tensors, inputs and the missing
sentinel are allocated with `Node::new`, whose `inputs` is empty, and the
synthetic outputs node is never the source of an edge; an outputs node
with edges therefore never occurs below another node). -/
def NodeT.wfShape : NodeT → Bool
| NodeT.mk d ins => (d.isOperator || ins.isEmpty) && allWfShape ins

def allWfShape : List (NodeT × Nat) → Bool
| [] => true
| (n, _) :: rest => NodeT.wfShape n && allWfShape rest

end

/-! ### Concrete fixtures for witnesses and counterexamples -/

/-- A one-operator record producing output `u` with no inputs. -/
def c1Node : NodeProto := ⟨"U", "Identity", [], ["u"], []⟩

def c1Shapes : List (String × Shape) := [("u", [1])]

/-- The build state after translating `c1Node` into an empty build. -/
def c1St1 : BuildState :=
  ⟨[⟨NodeDefinition.operator ⟨c1Node, [[1]]⟩, []⟩], [("u", 0)]⟩

/-- A producer record declaring only the output `y`. -/
def c3Producer : NodeProto := ⟨"P", "Op", [], ["y"], []⟩

/-- A consumer record whose declared input `x` is (inconsistently)
registered as produced by `c3Producer`, which does not declare `x`. -/
def c3Node : NodeProto := ⟨"N", "Op", ["x"], ["n1"], []⟩

def c3Shapes : List (String × Shape) := [("y", [1]), ("n1", [1])]

def c3Defs : List (String × NodeDefinition) :=
  [("x", NodeDefinition.operator ⟨c3Producer, [[1]]⟩)]

/-- The build state after translating `c3Producer` into an empty build. -/
def c3PState : BuildState :=
  ⟨[⟨NodeDefinition.operator ⟨c3Producer, [[1]]⟩, []⟩], [("y", 0)]⟩

/-- An operator consuming the (registered) empty-named tensor first and the
unregistered name `q` second. -/
def c10Node : NodeProto := ⟨"N", "Op", ["", "q"], ["n1"], []⟩

/-- A definition table registering a constant tensor under the empty
name — legal, since `from_model` registers initializer names without an
emptiness check. -/
def c10Defs : List (String × NodeDefinition) := [("", NodeDefinition.tensor ⟨""⟩)]

def c10Shapes : List (String × Shape) := [("n1", [1])]

/-- The state after building `c10Node`: the empty-string memo key holds the
*tensor* node, and the unregistered input `q` was resolved to it. -/
def c10FinalState : BuildState :=
  ⟨[⟨NodeDefinition.tensor ⟨""⟩, []⟩,
    ⟨NodeDefinition.operator ⟨c10Node, [[1]]⟩, [⟨0, 0⟩, ⟨0, 0⟩]⟩],
   [("n1", 1), ("", 0)]⟩

/-- The state holding exactly one freshly allocated `Missing` node. -/
def c10MissingState : BuildState :=
  ⟨[⟨NodeDefinition.missing, []⟩], [("", 0)]⟩

/-- A declared-input leaf node. -/
def c7InputNode : NodeT := NodeT.mk (NodeDefinition.input ⟨"i"⟩) []

/-- A synthetic outputs root whose single edge comes from a declared
input. -/
def c7OutputsRoot : NodeT := NodeT.mk (NodeDefinition.outputs ["o"]) [(c7InputNode, 0)]

/-- A constant-tensor leaf node. -/
def c7TensorNode : NodeT := NodeT.mk (NodeDefinition.tensor ⟨"w"⟩) []

/-- An operator whose only input is a constant tensor. -/
def c7ConstOp : NodeT :=
  NodeT.mk (NodeDefinition.operator ⟨c1Node, [[1]]⟩) [(c7TensorNode, 0)]

/-- An operator whose only input is a declared network input. -/
def c7DynOp : NodeT :=
  NodeT.mk (NodeDefinition.operator ⟨c1Node, [[1]]⟩) [(c7InputNode, 0)]

/-- An unsupported `Sum` operator record. -/
def c2Sum : NodeProto := ⟨"n", "Sum", ["a"], ["o"], []⟩

/-- An operator record with a type unknown to the decision table. -/
def c2Unknown : NodeProto := ⟨"n", "Gelu", ["a"], ["o"], []⟩

def c2Dims : List (String × List Int) := [("a", [4096]), ("o", [4096])]

/-- A pooling record whose `auto_pad` is the unimplemented `VALID`
policy. -/
def c2BadPad : NodeProto :=
  ⟨"n", "MaxPool", ["x"], ["y"],
   [("auto_pad", AttrValue.str "VALID"), ("kernel_shape", AttrValue.ints [2, 2])]⟩

def c2BadPadDims : List (String × List Int) := [("x", [1, 1, 4, 4]), ("y", [1, 1, 2, 2])]

/-- A 1×1 convolution with 16 input channels and 4 output channels — the
1×1 fast-path conditions. -/
def c4Conv16 : NodeProto :=
  ⟨"n", "Conv", ["x", "w"], ["y"], [("kernel_shape", AttrValue.ints [1, 1])]⟩

def c4Dims16 : List (String × List Int) :=
  [("x", [1, 16, 8, 8]), ("w", [4, 16, 1, 1]), ("y", [1, 4, 8, 8])]

/-- The same 1×1 convolution with 15 input channels — divisibility by 16
fails. -/
def c4Dims15 : List (String × List Int) :=
  [("x", [1, 15, 8, 8]), ("w", [4, 15, 1, 1]), ("y", [1, 4, 8, 8])]

/-- A 3×3 `SAME_UPPER` max-pooling record (the spec's auto-pad example). -/
def c5MaxPool : NodeProto :=
  ⟨"n", "MaxPool", ["x"], ["y"],
   [("kernel_shape", AttrValue.ints [3, 3]), ("auto_pad", AttrValue.str "SAME_UPPER")]⟩

def c5Dims : List (String × List Int) := [("x", [1, 3, 8, 8]), ("y", [1, 3, 8, 8])]

/-- A unary elementwise operator with flattened output length 4096. -/
def c6Abs : NodeProto := ⟨"n", "Abs", ["a"], ["o"], []⟩

/-- A shape-only copy operator with flattened output length 4096. -/
def c6Reshape : NodeProto := ⟨"n", "Reshape", ["a"], ["o"], []⟩

def c6Dims4096 : List (String × List Int) := [("a", [4096]), ("o", [4096])]

/-- A concatenation with flattened output length 1000. -/
def c6Concat : NodeProto := ⟨"n", "Concat", ["a"], ["o"], []⟩

def c6Dims1000 : List (String × List Int) := [("a", [1000]), ("o", [1000])]

/-- A minimal activation record: no inputs, one output of length 4. -/
def c8Node : NodeProto := ⟨"n", "Relu", [], ["o"], []⟩

def c8Dims : List (String × List Int) := [("o", [4])]

/-- The rendering context `compile` produces for `c8Node`. -/
def c8Ctx : Ctx :=
  [("op_type", CtxVal.str "relu"),
   ("output", CtxVal.strs ["o"]),
   ("input", CtxVal.strs []),
   ("o_len_0", CtxVal.int 4),
   ("o_dims_0", CtxVal.ints [4])]

/-- An activation record whose tensor names carry characters that are
illegal in generated identifiers. -/
def c9Node : NodeProto := ⟨"n", "Relu", ["a.b/c"], ["o:ut"], []⟩

def c9Dims : List (String × List Int) := [("a.b/c", [4]), ("o:ut", [4])]

/-! ## Theorems -/

/-- C5: for every pooling or convolution node, `NOTSET` auto-padding uses
the `pads` attribute verbatim; `SAME_UPPER`/`SAME_LOWER` compute, per
spatial axis, `slack = -stride + (kernel - 1) * dilation + 1`,
`half = slack / 2` (truncating integer division) and `rem = slack % 2`,
and place `[low0, low1, high0, high1]` with low `half` / high `half + rem`
for `SAME_UPPER` and the two swapped for `SAME_LOWER`; in particular
kernel `[3,3]`, stride `[1,1]`, dilation `[1,1]` under `SAME_UPPER` yields
pads `[1,1,1,1]`, as witnessed end-to-end by the `pad` context entry of a
compiled `MaxPool` node. -/
theorem C5_auto_pad_resolution :
    (∀ (s0 s1 k0 k1 d0 d1 : Int) (pads : List Int),
      resolvePads "NOTSET" [s0, s1] [k0, k1] [d0, d1] pads = Except.ok pads ∧
      resolvePads "SAME_UPPER" [s0, s1] [k0, k1] [d0, d1] pads =
        Except.ok
          [Int.tdiv (-s0 + ((k0 - 1) * d0 + 1)) 2,
           Int.tdiv (-s1 + ((k1 - 1) * d1 + 1)) 2,
           Int.tdiv (-s0 + ((k0 - 1) * d0 + 1)) 2 + Int.tmod (-s0 + ((k0 - 1) * d0 + 1)) 2,
           Int.tdiv (-s1 + ((k1 - 1) * d1 + 1)) 2 + Int.tmod (-s1 + ((k1 - 1) * d1 + 1)) 2] ∧
      resolvePads "SAME_LOWER" [s0, s1] [k0, k1] [d0, d1] pads =
        Except.ok
          [Int.tdiv (-s0 + ((k0 - 1) * d0 + 1)) 2 + Int.tmod (-s0 + ((k0 - 1) * d0 + 1)) 2,
           Int.tdiv (-s1 + ((k1 - 1) * d1 + 1)) 2 + Int.tmod (-s1 + ((k1 - 1) * d1 + 1)) 2,
           Int.tdiv (-s0 + ((k0 - 1) * d0 + 1)) 2,
           Int.tdiv (-s1 + ((k1 - 1) * d1 + 1)) 2]) ∧
    resolvePads "SAME_UPPER" [1, 1] [3, 3] [1, 1] [0, 0, 0, 0] = Except.ok [1, 1, 1, 1] ∧
    (compile c5MaxPool c5Dims).map (fun r => ctxLookup r.2.1 "pad") =
      Except.ok (some (CtxVal.ints [1, 1, 1, 1])) := by
  refine ⟨?_, by rfl, by rfl⟩
  intro s0 s1 k0 k1 d0 d1 pads
  exact ⟨rfl, rfl, rfl⟩

/-- C9: name sanitization removes exactly the characters `(` `)` `,` `"`
`.` `;` `:` `'` `/` and keeps every other character unchanged in order; it
is the identity on names free of those characters, it is idempotent, it
maps `"a.b/c"` to `"abc"`, and the sanitized input and output name lists
are what `compile` places in the rendering context. -/
theorem C9_name_sanitization :
    (∀ (s : String) (c : Char),
      c ∈ (escapeName s).data ↔ (c ∈ s.data ∧ c ∉ illegalNameChars)) ∧
    (∀ s : String, (∀ c ∈ s.data, c ∉ illegalNameChars) → escapeName s = s) ∧
    (∀ s : String, escapeName (escapeName s) = escapeName s) ∧
    escapeName "a.b/c" = "abc" ∧
    (compile c9Node c9Dims).map
        (fun r => (ctxLookup r.2.1 "input", ctxLookup r.2.1 "output")) =
      Except.ok
        (some (CtxVal.strs (c9Node.input.map escapeName)),
         some (CtxVal.strs (c9Node.output.map escapeName))) := by
  refine ⟨?_, ?_, ?_, by decide, by rfl⟩
  · intro s c
    simp [escapeName, List.mem_filter]
  · intro s h
    cases s with
    | mk data =>
      simp only [escapeName]
      congr 1
      exact List.filter_eq_self.mpr (fun c hc => by simpa using h c hc)
  · intro s
    simp [escapeName, List.filter_filter]

/-- C9 witness: the sanitization identity applied at the already-sanitized
name `"abc"`. -/
theorem C9_name_sanitization_witness : escapeName "abc" = "abc" :=
  C9_name_sanitization.2.1 "abc" (by decide)

/-- A successful `from_node` leaves the translated node's unique name bound
to the returned arena index in the memo map (either it was already bound,
or the final insertion binds it). -/
theorem from_node_memo_records
    (fuel : Nat) (node : NodeProto) (value_shapes : List (String × Shape))
    (defs : List (String × NodeDefinition)) (st : BuildState)
    (i : Nat) (st' : BuildState) (nm : String)
    (h : from_node fuel node value_shapes defs st = Except.ok (i, st'))
    (hnm : node.output.head? = some nm) :
    assocLookup st'.memo nm = some i := by
  cases fuel with
  | zero => simp [from_node] at h
  | succ fuel =>
    rw [from_node, hnm] at h
    simp only at h
    cases hmm : assocLookup st.memo nm with
    | some j =>
      rw [hmm] at h
      simp only [Except.ok.injEq, Prod.mk.injEq] at h
      obtain ⟨h1, h2⟩ := h
      subst h1; subst h2
      exact hmm
    | none =>
      rw [hmm] at h
      cases hop : OperatorDefinition.fromProto node value_shapes with
      | error e => rw [hop] at h; simp at h
      | ok opdef =>
        rw [hop] at h
        cases hri : resolveInputs fuel node.input value_shapes defs st with
        | error e => rw [hri] at h; simp at h
        | ok p =>
          obtain ⟨inputs, st1⟩ := p
          rw [hri] at h
          simp only [Except.ok.injEq, Prod.mk.injEq] at h
          obtain ⟨h1, h2⟩ := h
          subst h1; subst h2
          simp [assocLookup]

/-- C1: each unique node identity (the node's first output name) is
translated into a `Node` at most once per build: a successful translation
records the identity in the memo map bound to the produced node, and any
later `from_node` request for a record with the same unique name returns
the very same node (the same arena index, i.e. the same `Arc` instance)
and leaves the build state untouched. -/
theorem C1_unique_name_memoization
    (fuel : Nat) (node : NodeProto) (value_shapes : List (String × Shape))
    (defs : List (String × NodeDefinition)) (st : BuildState)
    (i : Nat) (st' : BuildState) (nm : String)
    (h : from_node fuel node value_shapes defs st = Except.ok (i, st'))
    (hnm : node.output.head? = some nm) :
    assocLookup st'.memo nm = some i ∧
    ∀ (fuel2 : Nat) (node2 : NodeProto), node2.output.head? = some nm →
      from_node (fuel2 + 1) node2 value_shapes defs st' = Except.ok (i, st') := by
  have hrec := from_node_memo_records fuel node value_shapes defs st i st' nm h hnm
  refine ⟨hrec, ?_⟩
  intro fuel2 node2 h2
  rw [from_node, h2]
  simp only [hrec]

/-- C1 witness: building the record with unique name `u` once constructs
its node at index 0; a second request returns index 0 with the state
unchanged. -/
theorem C1_unique_name_memoization_witness :
    from_node 2 c1Node c1Shapes [] ⟨[], []⟩ = Except.ok (0, c1St1) ∧
    from_node 1 c1Node c1Shapes [] c1St1 = Except.ok (0, c1St1) := by
  have h1 : from_node 2 c1Node c1Shapes [] ⟨[], []⟩ = Except.ok (0, c1St1) := by rfl
  exact ⟨h1,
    (C1_unique_name_memoization 2 c1Node c1Shapes [] ⟨[], []⟩ 0 c1St1 "u" h1 rfl).2
      0 c1Node rfl⟩

/-- C3 counterexample: with input `x` registered as produced by an operator
that only declares output `y`, the build fails — but with
`OutputNodeNotFound("from_node x")`, not with the `InputNodeNotFound`
variant the claim names (that variant is declared in `IrError` yet never
constructed by `from_node`). -/
theorem C3_counterexample :
    from_node 6 c3Node c3Shapes c3Defs ⟨[], []⟩ =
      Except.error (IrError.outputNodeNotFound ("from_node " ++ "x")) ∧
    IrError.isInputNodeNotFound (IrError.outputNodeNotFound ("from_node " ++ "x")) = false :=
  ⟨by rfl, rfl⟩

/-- C3 (amended): when an operator input name resolves to a producer
operator definition among whose declared outputs the name does not occur,
graph construction fails with the explicit error
`OutputNodeNotFound("from_node " ++ input_name)` (the declared
`InputNodeNotFound` variant is unused by `from_node`).  At the `from_node`
level this requires the consumer node's own output shapes to resolve
(`OperatorDefinition::from` succeeds): the struct literal evaluates the
`definition` field before the collected inputs, so a missing output shape
would take priority with `OutputNodeNotFound(output_name)`. -/
theorem C3_unresolved_output_index
    (fuel : Nat) (input_name : String) (value_shapes : List (String × Shape))
    (defs : List (String × NodeDefinition)) (st : BuildState)
    (source_op : OperatorDefinition) (j : Nat) (st1 : BuildState)
    (hdef : assocLookup defs input_name = some (NodeDefinition.operator source_op))
    (hpos : source_op.proto.output.findIdx? (fun s => s == input_name) = none)
    (hbuild : from_node fuel source_op.proto value_shapes defs st = Except.ok (j, st1)) :
    resolveInput (fuel + 1) input_name value_shapes defs st =
      Except.error (IrError.outputNodeNotFound ("from_node " ++ input_name)) ∧
    ∀ (node : NodeProto) (nm : String) (opdef : OperatorDefinition),
      node.input = [input_name] →
      node.output.head? = some nm → assocLookup st.memo nm = none →
      OperatorDefinition.fromProto node value_shapes = Except.ok opdef →
      from_node (fuel + 3) node value_shapes defs st =
        Except.error (IrError.outputNodeNotFound ("from_node " ++ input_name)) := by
  have hres : resolveInput (fuel + 1) input_name value_shapes defs st =
      Except.error (IrError.outputNodeNotFound ("from_node " ++ input_name)) := by
    rw [resolveInput, hdef]
    simp only [hbuild, hpos]
  refine ⟨hres, ?_⟩
  intro node nm opdef hin hout hmemo hshape
  rw [from_node, hout]
  simp only [hmemo, hshape, hin]
  rw [resolveInputs]
  simp only [hres]

/-- C3 witness: the amended failure at a concrete build — the producer of
`x` declares only `y`, so resolving the input `x` (and building a node
whose sole input is `x` and whose own output shape is present) fails with
`OutputNodeNotFound("from_node x")`. -/
theorem C3_unresolved_output_index_witness :
    resolveInput 3 "x" c3Shapes c3Defs ⟨[], []⟩ =
      Except.error (IrError.outputNodeNotFound ("from_node " ++ "x")) ∧
    from_node 5 c3Node c3Shapes c3Defs ⟨[], []⟩ =
      Except.error (IrError.outputNodeNotFound ("from_node " ++ "x")) := by
  have h := C3_unresolved_output_index 2 "x" c3Shapes c3Defs ⟨[], []⟩
    ⟨c3Producer, [[1]]⟩ 0 c3PState rfl rfl (by rfl)
  exact ⟨h.1, h.2 c3Node "n1" ⟨c3Node, [[1]]⟩ rfl rfl rfl (by rfl)⟩

/-- C10 counterexample: in a build whose definition table registers a
constant tensor under the empty name, the unregistered operator input `q`
resolves through the empty-string memo key to the *tensor* node (arena
index 0, whose definition is not `Missing`), because the tensor (whose
`get_name` is also `""`) was fetched-or-created under that key first. -/
theorem C10_counterexample :
    from_node 6 c10Node c10Shapes c10Defs ⟨[], []⟩ = Except.ok (1, c10FinalState) ∧
    assocLookup c10Defs "q" = none ∧
    (c10FinalState.arena.get? 0).map Node.definition =
      some (NodeDefinition.tensor ⟨""⟩) ∧
    NodeDefinition.isMissing (NodeDefinition.tensor ⟨""⟩) = false :=
  ⟨by rfl, rfl, rfl, rfl⟩

/-- C10 (amended): in a build state whose memo map does not yet bind the
empty-string key (in particular, no consumed definition reported the empty
string as its name), an operator input with no registered producer
definition resolves to a freshly allocated node with the `Missing`
definition and `output_index` 0, memoized under the empty-string key
(`Missing` definitions report `""` as their name); every later
unregistered input of the build then resolves to that same node instance
with the state unchanged, so all absent optional inputs share one node. -/
theorem C10_missing_input_sharing
    (fuel : Nat) (input_name : String) (value_shapes : List (String × Shape))
    (defs : List (String × NodeDefinition)) (st : BuildState)
    (hdef : assocLookup defs input_name = none)
    (hmemo : assocLookup st.memo "" = none) :
    resolveInput (fuel + 1) input_name value_shapes defs st =
      Except.ok (⟨st.arena.length, 0⟩,
        ⟨st.arena ++ [⟨NodeDefinition.missing, []⟩],
         ("", st.arena.length) :: st.memo⟩) ∧
    ∀ (fuel2 : Nat) (name2 : String), assocLookup defs name2 = none →
      resolveInput (fuel2 + 1) name2 value_shapes defs
          ⟨st.arena ++ [⟨NodeDefinition.missing, []⟩],
           ("", st.arena.length) :: st.memo⟩ =
        Except.ok (⟨st.arena.length, 0⟩,
          ⟨st.arena ++ [⟨NodeDefinition.missing, []⟩],
           ("", st.arena.length) :: st.memo⟩) := by
  constructor
  · rw [resolveInput, hdef]
    simp only [Option.getD, NodeDefinition.get_name, hmemo]
  · intro fuel2 name2 h2
    rw [resolveInput, h2]
    simp only [Option.getD, NodeDefinition.get_name]
    simp [assocLookup]

/-- C10 witness: with an empty definition table, the unregistered input
`q` allocates the single `Missing` node at index 0 under the empty-string
memo key, and the later unregistered input `q2` resolves to the same node
with the state unchanged. -/
theorem C10_missing_input_sharing_witness :
    resolveInput 1 "q" c10Shapes [] ⟨[], []⟩ = Except.ok (⟨0, 0⟩, c10MissingState) ∧
    resolveInput 1 "q2" c10Shapes [] c10MissingState = Except.ok (⟨0, 0⟩, c10MissingState) := by
  have h := C10_missing_input_sharing 0 "q" c10Shapes [] ⟨[], []⟩ rfl rfl
  exact ⟨h.1, h.2 0 "q2" rfl⟩

mutual

/-- A node whose tree contains no `Input` definition is constant. -/
theorem no_input_ancestor_constant :
    ∀ n : NodeT, n.hasInputAncestor = false → n.is_constant = true
| NodeT.mk d ins, h => by
  rw [NodeT.hasInputAncestor] at h
  simp only [Bool.or_eq_false_iff] at h
  obtain ⟨h1, h2⟩ := h
  have hall := no_input_ancestor_allConstant ins h2
  cases d <;> simp_all [NodeT.is_constant, NodeT.is_dynamic]

/-- Edge-list version of `no_input_ancestor_constant`. -/
theorem no_input_ancestor_allConstant :
    ∀ l : List (NodeT × Nat), anyInputAncestor l = false → allConstant l = true
| [], _ => rfl
| (n, k) :: rest, h => by
  rw [anyInputAncestor] at h
  simp only [Bool.or_eq_false_iff] at h
  obtain ⟨h1, h2⟩ := h
  rw [allConstant, no_input_ancestor_constant n h1,
      no_input_ancestor_allConstant rest h2]
  rfl

end

mutual

/-- A dynamic (operator or input) node of a well-shaped tree that has an
`Input` ancestor is not constant. -/
theorem dynamic_input_ancestor_not_constant :
    ∀ n : NodeT, n.wfShape = true → n.is_dynamic = true → n.hasInputAncestor = true →
      n.is_constant = false
| NodeT.mk d ins, hwf, hdyn, hanc => by
  rw [NodeT.wfShape] at hwf
  simp only [Bool.and_eq_true] at hwf
  obtain ⟨hwf1, hwf2⟩ := hwf
  cases d with
  | operator op =>
    rw [NodeT.hasInputAncestor] at hanc
    simp only [Bool.or_eq_true] at hanc
    cases hanc with
    | inl hin => simp [NodeDefinition.isInput] at hin
    | inr hany =>
      have := dynamic_input_ancestor_not_constant_list ins hwf2 hany
      simp_all [NodeT.is_constant, NodeT.is_dynamic, NodeDefinition.isOperator, NodeDefinition.isInput]
  | input i => simp [NodeT.is_constant, NodeT.is_dynamic, NodeDefinition.isOperator, NodeDefinition.isInput]
  | tensor t => simp [NodeT.is_dynamic, NodeDefinition.isOperator, NodeDefinition.isInput] at hdyn
  | outputs names => simp [NodeT.is_dynamic, NodeDefinition.isOperator, NodeDefinition.isInput] at hdyn
  | missing => simp [NodeT.is_dynamic, NodeDefinition.isOperator, NodeDefinition.isInput] at hdyn

/-- Edge-list version of `dynamic_input_ancestor_not_constant`. -/
theorem dynamic_input_ancestor_not_constant_list :
    ∀ l : List (NodeT × Nat), allWfShape l = true → anyInputAncestor l = true →
      allConstant l = false
| (n, k) :: rest, hwf, hanc => by
  rw [allWfShape] at hwf
  simp only [Bool.and_eq_true] at hwf
  obtain ⟨hwf1, hwf2⟩ := hwf
  rw [anyInputAncestor] at hanc
  simp only [Bool.or_eq_true] at hanc
  rw [allConstant]
  cases hn : NodeT.hasInputAncestor n with
  | true =>
    have hnc : n.is_constant = false := by
      obtain ⟨d, ins⟩ := n
      rw [NodeT.wfShape] at hwf1
      simp only [Bool.and_eq_true] at hwf1
      obtain ⟨hsh, hins⟩ := hwf1
      cases d with
      | operator op =>
        exact dynamic_input_ancestor_not_constant (NodeT.mk (NodeDefinition.operator op) ins)
          (by rw [NodeT.wfShape]; simp [hsh, hins])
          (by simp [NodeT.is_dynamic, NodeDefinition.isOperator, NodeDefinition.isInput]) hn
      | input i => simp [NodeT.is_constant, NodeT.is_dynamic, NodeDefinition.isOperator, NodeDefinition.isInput]
      | tensor t =>
        rw [NodeT.hasInputAncestor] at hn
        simp only [NodeDefinition.isOperator, Bool.false_or, List.isEmpty_iff] at hsh
        subst hsh
        simp [anyInputAncestor, NodeDefinition.isInput] at hn
      | outputs names =>
        rw [NodeT.hasInputAncestor] at hn
        simp only [NodeDefinition.isOperator, Bool.false_or, List.isEmpty_iff] at hsh
        subst hsh
        simp [anyInputAncestor, NodeDefinition.isInput] at hn
      | missing =>
        rw [NodeT.hasInputAncestor] at hn
        simp only [NodeDefinition.isOperator, Bool.false_or, List.isEmpty_iff] at hsh
        subst hsh
        simp [anyInputAncestor, NodeDefinition.isInput] at hn
    simp [hnc]
  | false =>
    cases hanc with
    | inl h => rw [h] at hn; cases hn
    | inr h =>
      rw [dynamic_input_ancestor_not_constant_list rest hwf2 h]
      simp

end

/-- C7 counterexample: the synthetic outputs root over a declared input has
an `Input`-derived ancestor, yet `is_constant` is `true` (an `Outputs` node
is not dynamic, so the first disjunct of `is_constant` fires regardless of
its inputs), contradicting the claim that any node with an `Input`-derived
ancestor reports `is_constant = false`. -/
theorem C7_counterexample :
    c7OutputsRoot.hasInputAncestor = true ∧ c7OutputsRoot.is_constant = true :=
  ⟨rfl, rfl⟩

/-- C7 (amended): `is_dynamic` holds exactly for the `Operator` and `Input`
variants; `is_constant` holds iff the node is not dynamic or it is an
`Operator` all of whose inputs' source nodes are recursively constant; a
node none of whose transitive nodes is an `Input` reports
`is_constant = true`; and in a well-shaped tree (only operator nodes carry
input edges, as `from_node` guarantees below the root) a *dynamic* node
with an `Input`-derived ancestor reports `is_constant = false` — a
non-dynamic node (such as the `Outputs` root) reports `true` regardless of
its ancestors. -/
theorem C7_dynamic_and_constant :
    (∀ (d : NodeDefinition) (ins : List (NodeT × Nat)),
      (NodeT.mk d ins).is_dynamic = (d.isOperator || d.isInput)) ∧
    (∀ (d : NodeDefinition) (ins : List (NodeT × Nat)),
      (NodeT.mk d ins).is_constant =
        (!(NodeT.mk d ins).is_dynamic || (d.isOperator && allConstant ins))) ∧
    (∀ n : NodeT, n.hasInputAncestor = false → n.is_constant = true) ∧
    (∀ n : NodeT, n.wfShape = true → n.is_dynamic = true → n.hasInputAncestor = true →
      n.is_constant = false) := by
  refine ⟨?_, ?_, no_input_ancestor_constant, dynamic_input_ancestor_not_constant⟩
  · intro d ins
    cases d <;> rfl
  · intro d ins
    cases d <;> rfl

/-- C7 witness: an operator over a constant tensor is constant; an operator
over a declared input is not. -/
theorem C7_dynamic_and_constant_witness :
    c7ConstOp.is_constant = true ∧ c7DynOp.is_constant = false :=
  ⟨C7_dynamic_and_constant.2.2.1 c7ConstOp rfl,
   C7_dynamic_and_constant.2.2.2 c7DynOp rfl rfl rfl⟩

/-- Rust indexing at 0 on a nonempty vector yields its head. -/
theorem listIdx_cons_zero {α : Type} (a : α) (l : List α) :
    listIdx (a :: l) 0 = Except.ok a := rfl

/-- Rust indexing at `n + 1` on a nonempty vector indexes the tail at `n`. -/
theorem listIdx_cons_succ {α : Type} (a : α) (l : List α) (n : Nat) :
    listIdx (a :: l) (n + 1) = listIdx l n := rfl

set_option maxHeartbeats 3200000 in
/-- C2: an operator whose type falls outside the decision table fails
explicitly with the `unimplemented` error instead of producing a kernel:
`Sum`, `BatchNormalization` (which reads `epsilon` and then aborts), any
operator type not named by a branch of the table, and a pooling or
convolution node whose `auto_pad` is none of `NOTSET`, `SAME_UPPER`,
`SAME_LOWER`. -/
theorem C2_unimplemented_failure
    (node : NodeProto) (dims_infos : List (String × List Int))
    (input_dims output_dims : List (List Int))
    (hid : mapLookupDims dims_infos node.input = Except.ok input_dims)
    (hod : mapLookupDims dims_infos node.output = Except.ok output_dims) :
    (node.opType = "Sum" → compile node dims_infos = Except.error CompileError.unimplemented) ∧
    (node.opType = "BatchNormalization" →
      ∀ eps : Rat, getAttrFloat "epsilon" (some 1) node = Except.ok eps →
      compile node dims_infos = Except.error CompileError.unimplemented) ∧
    (node.opType ∉ handledOpTypes →
      compile node dims_infos = Except.error CompileError.unimplemented) ∧
    (∀ (idim0 : List Int) (irest : List (List Int)) (ap : String) (dil ks str pds : List Int),
      (node.opType = "MaxPool" ∨ node.opType = "AveragePool" ∨
       node.opType = "Conv" ∨ node.opType = "ConvRelu") →
      input_dims = idim0 :: irest → idim0.length = 4 →
      getAttrString "auto_pad" (some "NOTSET") node = Except.ok ap →
      getAttrInts "dilations" (some [1, 1]) node = Except.ok dil →
      getAttrInts "kernel_shape" none node = Except.ok ks →
      getAttrInts "strides" (some [1, 1]) node = Except.ok str →
      getAttrInts "pads" (some [0, 0, 0, 0]) node = Except.ok pds →
      ap ≠ "NOTSET" → ap ≠ "SAME_UPPER" → ap ≠ "SAME_LOWER" →
      compile node dims_infos = Except.error CompileError.unimplemented) := by
  refine ⟨?_, ?_, ?_, ?_⟩
  · intro hop
    simp [compile, hid, hod, hop, Bind.bind, Except.bind, Functor.map, Except.map,
          pure, Except.pure]
  · intro hop eps heps
    simp [compile, hid, hod, hop, heps, Bind.bind, Except.bind, Functor.map, Except.map,
          pure, Except.pure]
  · intro hop
    simp only [compile, hid, hod, Bind.bind, Except.bind]
    split
    all_goals simp_all [handledOpTypes]
  · intro idim0 irest ap dil ks str pds hop hdims h4 hap hdil hks hstr hpds hne1 hne2 hne3
    have hrp : resolvePads ap str ks dil pds = Except.error CompileError.unimplemented := by
      rw [resolvePads.eq_def]
      split <;> simp_all
    rcases hop with h|h|h|h <;>
      simp [compile, hid, hod, h, hdims, h4, hap, hdil, hks, hstr, hpds, hrp, listIdx,
            Bind.bind, Except.bind, Functor.map, Except.map, pure, Except.pure]

/-- C2 witness: the failure at three concrete nodes — a `Sum` node, an
unknown `Gelu` node, and a `MaxPool` node with `auto_pad = "VALID"`. -/
theorem C2_unimplemented_failure_witness :
    compile c2Sum c2Dims = Except.error CompileError.unimplemented ∧
    compile c2Unknown c2Dims = Except.error CompileError.unimplemented ∧
    compile c2BadPad c2BadPadDims = Except.error CompileError.unimplemented :=
  ⟨(C2_unimplemented_failure c2Sum c2Dims [[4096]] [[4096]] rfl rfl).1 rfl,
   (C2_unimplemented_failure c2Unknown c2Dims [[4096]] [[4096]] rfl rfl).2.2.1 (by decide),
   (C2_unimplemented_failure c2BadPad c2BadPadDims [[1, 1, 4, 4]] [[1, 1, 2, 2]] rfl rfl).2.2.2
     [1, 1, 4, 4] [] "VALID" [1, 1] [2, 2] [1, 1] [0, 0, 0, 0]
     (Or.inl rfl) rfl (by decide) rfl rfl rfl rfl rfl
     (by decide) (by decide) (by decide)⟩

set_option maxHeartbeats 3200000 in
/-- C4: for a `Conv`/`ConvRelu` node with 4-D input, the fast-path
selection follows the source's priority order: the 1×1 conditions (unit
stride, kernel and dilation, zero resolved pads, input channels divisible
by 16, output channels divisible by 4) select the specialized 1×1 kernel
with dispatch `ceil(L, 1024)`; the 3×3 conditions (unit stride and
dilation, kernel `[3,3]`, output channels divisible by 4 — disjoint from
the 1×1 conditions) select the specialized 3×3 kernel with dispatch
`ceil(L, 1024)`; when neither holds the generic convolution kernel is
chosen with dispatch `ceil(L, 256)`. -/
theorem C4_conv_fast_path
    (node : NodeProto) (dims_infos : List (String × List Int))
    (n0 c h0 w0 : Int) (irest : List (List Int))
    (m0 m oh ow : Int) (orest : List (List Int))
    (ap : String) (dil ks str pds rpads : List Int) (ka kb : Int)
    (hop : node.opType = "Conv" ∨ node.opType = "ConvRelu")
    (hid : mapLookupDims dims_infos node.input = Except.ok ([n0, c, h0, w0] :: irest))
    (hod : mapLookupDims dims_infos node.output = Except.ok ([m0, m, oh, ow] :: orest))
    (hap : getAttrString "auto_pad" (some "NOTSET") node = Except.ok ap)
    (hdil : getAttrInts "dilations" (some [1, 1]) node = Except.ok dil)
    (hks : getAttrInts "kernel_shape" none node = Except.ok ks)
    (hstr : getAttrInts "strides" (some [1, 1]) node = Except.ok str)
    (hpds : getAttrInts "pads" (some [0, 0, 0, 0]) node = Except.ok pds)
    (hrp : resolvePads ap str ks dil pds = Except.ok rpads)
    (hk0 : listIdx ks 0 = Except.ok ka)
    (hk1 : listIdx ks 1 = Except.ok kb) :
    (str = [1, 1] ∧ ks = [1, 1] ∧ (dil = [1, 1] ∧ rpads = [0, 0, 0, 0]) ∧
       Int.tmod c 16 = 0 ∧ Int.tmod m 4 = 0 →
      kernelOf (compile node dims_infos) =
        Except.ok ("pool/conv_kernel_1.wgsl",
          u32cast (ceil (listProd [m0, m, oh, ow]) 1024), 1, 1)) ∧
    (str = [1, 1] ∧ ks = [3, 3] ∧ dil = [1, 1] ∧ Int.tmod m 4 = 0 →
      kernelOf (compile node dims_infos) =
        Except.ok ("pool/conv_kernel_3.wgsl",
          u32cast (ceil (listProd [m0, m, oh, ow]) 1024), 1, 1)) ∧
    (¬(str = [1, 1] ∧ ks = [1, 1] ∧ (dil = [1, 1] ∧ rpads = [0, 0, 0, 0]) ∧
         Int.tmod c 16 = 0 ∧ Int.tmod m 4 = 0) →
     ¬(str = [1, 1] ∧ ks = [3, 3] ∧ dil = [1, 1] ∧ Int.tmod m 4 = 0) →
      kernelOf (compile node dims_infos) =
        Except.ok ("pool/conv.wgsl",
          u32cast (ceil (listProd [m0, m, oh, ow]) 256), 1, 1)) := by
  refine ⟨?_, ?_, ?_⟩
  · rintro ⟨hs, hk, ⟨hd, hp⟩, hc, hm⟩
    subst hs hk hd hp
    rcases hop with h|h <;>
      simp [compile, hid, hod, h, hap, hdil, hks, hstr, hpds, hrp, hk0, hk1, hc, hm,
            listIdx_cons_zero, listIdx_cons_succ, kernelOf,
            Bind.bind, Except.bind, Functor.map, Except.map, pure, Except.pure]
  · rintro ⟨hs, hk, hd, hm⟩
    subst hs hk hd
    rcases hop with h|h <;>
      simp [compile, hid, hod, h, hap, hdil, hks, hstr, hpds, hrp, hk0, hk1, hm,
            listIdx_cons_zero, listIdx_cons_succ, kernelOf,
            Bind.bind, Except.bind, Functor.map, Except.map, pure, Except.pure]
  · intro hn1 hn2
    rcases hop with h|h <;>
      simp [compile, hid, hod, h, hap, hdil, hks, hstr, hpds, hrp, hk0, hk1, hn1, hn2,
            listIdx_cons_zero, listIdx_cons_succ, kernelOf,
            Bind.bind, Except.bind, Functor.map, Except.map, pure, Except.pure]

/-- C4 witness: with unit stride/kernel/dilation, zero pads and output
channels 4, input channels 16 select the fast 1×1 kernel; input channels
15 fall through to the generic convolution kernel. -/
theorem C4_conv_fast_path_witness :
    kernelOf (compile c4Conv16 c4Dims16) =
      Except.ok ("pool/conv_kernel_1.wgsl", 1, 1, 1) ∧
    kernelOf (compile c4Conv16 c4Dims15) =
      Except.ok ("pool/conv.wgsl", 1, 1, 1) :=
  ⟨(C4_conv_fast_path c4Conv16 c4Dims16 1 16 8 8 [[4, 16, 1, 1]] 1 4 8 8 []
      "NOTSET" [1, 1] [1, 1] [1, 1] [0, 0, 0, 0] [0, 0, 0, 0] 1 1
      (Or.inl rfl) rfl rfl rfl rfl rfl rfl rfl rfl rfl rfl).1 (by decide),
   (C4_conv_fast_path c4Conv16 c4Dims15 1 15 8 8 [[4, 15, 1, 1]] 1 4 8 8 []
      "NOTSET" [1, 1] [1, 1] [1, 1] [0, 0, 0, 0] [0, 0, 0, 0] 1 1
      (Or.inl rfl) rfl rfl rfl rfl rfl rfl rfl rfl rfl rfl).2.2 (by decide) (by decide)⟩

/-- C6 counterexample: the claim defines `ceil(n, k)` as the smallest
multiple of `k` that is ≥ `n` while also asserting
`ceil(1000, 256) = 4`; the code dispatches the `Concat` node with flattened
output length 1000 with `x = 4` work groups, whereas the smallest multiple
of 256 that is ≥ 1000 is 1024 ≠ 4. -/
theorem C6_counterexample :
    kernelOf (compile c6Concat c6Dims1000) =
      Except.ok ("matrix/concat.wgsl", 4, 1, 1) ∧
    ceilMultiple 1000 256 = 1024 ∧ (4 : Nat) ≠ 1024 :=
  ⟨by rfl, by decide, by decide⟩

set_option maxHeartbeats 3200000 in
/-- C6 (amended): with `L` the flattened element count of output 0 and
`ceil(n, k)` the *ceiling of `n / k`* (the least count of `k`-sized work
groups covering `n`, matching the claim's own worked example), a unary
map operator dispatches `x = L / 4`, a shape-only copy operator dispatches
`x = L / 16`, and `Concat` dispatches `x = ceil(L, 256)`. -/
theorem C6_dispatch_formulas
    (node : NodeProto) (dims_infos : List (String × List Int))
    (input_dims : List (List Int)) (od0 : List Int) (orest : List (List Int))
    (hid : mapLookupDims dims_infos node.input = Except.ok input_dims)
    (hod : mapLookupDims dims_infos node.output = Except.ok (od0 :: orest)) :
    (node.opType ∈ unaryOpTypes →
      kernelOf (compile node dims_infos) =
        Except.ok ("endomorphism/map.wgsl", u32cast (Int.tdiv (listProd od0) 4), 1, 1)) ∧
    (node.opType ∈ copyOpTypes →
      kernelOf (compile node dims_infos) =
        Except.ok ("endomorphism/copy.wgsl", u32cast (Int.tdiv (listProd od0) 16), 1, 1)) ∧
    (node.opType = "Concat" →
      kernelOf (compile node dims_infos) =
        Except.ok ("matrix/concat.wgsl", u32cast (ceil (listProd od0) 256), 1, 1)) := by
  refine ⟨?_, ?_, ?_⟩
  · intro hop
    simp only [unaryOpTypes, List.mem_cons, List.not_mem_nil, or_false] at hop
    rcases hop with h|h|h|h|h|h|h|h|h|h|h|h|h|h|h|h|h <;>
      simp [compile, hid, hod, h, kernelOf, listIdx, Bind.bind, Except.bind,
            Functor.map, Except.map, pure, Except.pure]
  · intro hop
    simp only [copyOpTypes, List.mem_cons, List.not_mem_nil, or_false] at hop
    rcases hop with h|h|h|h|h <;>
      simp [compile, hid, hod, h, kernelOf, listIdx, Bind.bind, Except.bind,
            Functor.map, Except.map, pure, Except.pure]
  · intro hop
    simp [compile, hid, hod, hop, kernelOf, listIdx, Bind.bind, Except.bind,
          Functor.map, Except.map, pure, Except.pure]

/-- C6 witness: a unary operator with output length 4096 dispatches 1024
work groups, a copy operator with output length 4096 dispatches 256, and a
`Concat` with output length 1000 dispatches `ceil(1000 / 256) = 4`. -/
theorem C6_dispatch_formulas_witness :
    kernelOf (compile c6Abs c6Dims4096) =
      Except.ok ("endomorphism/map.wgsl", 1024, 1, 1) ∧
    kernelOf (compile c6Reshape c6Dims4096) =
      Except.ok ("endomorphism/copy.wgsl", 256, 1, 1) ∧
    kernelOf (compile c6Concat c6Dims1000) =
      Except.ok ("matrix/concat.wgsl", 4, 1, 1) :=
  ⟨(C6_dispatch_formulas c6Abs c6Dims4096 [[4096]] [4096] [] rfl rfl).1 (by decide),
   (C6_dispatch_formulas c6Reshape c6Dims4096 [[4096]] [4096] [] rfl rfl).2.1 (by decide),
   (C6_dispatch_formulas c6Concat c6Dims1000 [[1000]] [1000] [] rfl rfl).2.2 rfl⟩

set_option maxHeartbeats 3200000 in
/-- C8: whenever `compile` succeeds, the dispatch size is one-dimensional:
the `y` and `z` components are 1 on every branch of the decision table (and
all three components are nonnegative integers by construction, being
`u32`-valued). -/
theorem C8_dispatch_one_dimensional
    (node : NodeProto) (dims_infos : List (String × List Int))
    (tmpl : String) (ctx : Ctx) (x y z : Nat)
    (h : compile node dims_infos = Except.ok (tmpl, ctx, x, y, z)) :
    y = 1 ∧ z = 1 := by
  simp only [compile, Bind.bind, Except.bind, Functor.map, Except.map,
             pure, Except.pure] at h
  repeat' split at h
  all_goals first
  | (simp only [Except.ok.injEq, Prod.mk.injEq] at h
     exact ⟨h.2.2.2.1.symm, h.2.2.2.2.symm⟩)
  | simp_all

/-- C8 witness: the theorem applied to the concrete compilation of a
`Relu` node, whose dispatch is `(1, 1, 1)`. -/
theorem C8_dispatch_one_dimensional_witness : (1 : Nat) = 1 ∧ (1 : Nat) = 1 :=
  C8_dispatch_one_dimensional c8Node c8Dims "endomorphism/activation.wgsl" c8Ctx
    1 1 1 (by rfl)

end Wonnx
